import Mathlib

/-!
Verification development for the BTCLab dip-buying bot
(`btclab/buydips.py` and `components/common/NotificationsHelper.py`).

The embedding models the per-symbol dip decision, the per-symbol effect of
one iteration of the trading loop (order placement, order-store update and
persistence, notification, insufficient-funds backoff), the timestamp
normalization inside `bought_less_than_24h_ago`, the `@retry` decorator that
wraps `main`, and the Telegram `send_msg` helper.

Prices, percentages and epoch timestamps are modelled as rationals (Python
floats are abstracted to exact arithmetic); time is an explicit `now`
parameter standing for `datetime.now()` expressed in seconds since the epoch.
-/

set_option autoImplicit false

namespace BTCLab

/-- A Python numeric value as stored in the `timestamp` field of an order:
either an `int` or a `float`.  The distinction matters because
`bought_less_than_24h_ago` branches on whether `str(timestamp)` contains a
decimal point. -/
inductive PyNum where
  | int (n : Int)
  | float (q : ℚ)
deriving DecidableEq

/-- The rational value of a Python number. -/
def PyNum.toRat : PyNum → ℚ
  | .int n => (n : ℚ)
  | .float q => q

/-- Models `'.' in str(timestamp)`.  Python's `str` of an `int` is an optional
sign followed by digits and never contains `'.'`; CPython's `str` of a finite
`float` of epoch-timestamp magnitude (below 1e16) always contains `'.'`. -/
def PyNum.strContainsDot : PyNum → Bool
  | .int _ => false
  | .float _ => true

/-- A purchase record, as returned by `crypto.place_order` and stored in the
order store (`db`): execution price, amount bought, and buy timestamp. -/
structure PurchaseRecord where
  price : ℚ
  amount : ℚ
  timestamp : PyNum
deriving DecidableEq

/-- The in-memory `orders` dict: symbol → last purchase record, modelled as an
association list (Python dict iteration order is insertion order). -/
abbrev Orders := List (String × PurchaseRecord)

/-- The timestamp-unit normalization performed at lines 35-36 of `buydips.py`:
`if '.' not in str(timestamp): timestamp /= 1000` — a dot-free (integer)
timestamp is taken to be milliseconds and divided by 1000, any other
timestamp is used unchanged as seconds. -/
def normalizeTimestamp (t : PyNum) : ℚ :=
  if t.strContainsDot then t.toRat else t.toRat / 1000

/-- `(now - bought_on).days` for a Python `timedelta`: the number of whole
days, floored towards negative infinity, of the elapsed seconds. -/
def timedeltaDays (diffSeconds : ℚ) : Int :=
  ⌊diffSeconds / 86400⌋

/-- `bought_less_than_24h_ago(symbol, orders)` from `buydips.py` (lines
31-40): false when the symbol has no record; otherwise normalize the stored
timestamp and test `(now - bought_on).days <= 1`.  `now` stands for
`datetime.now()` in epoch seconds. -/
def bought_less_than_24h_ago (now : ℚ) (symbol : String) (orders : Orders) : Bool :=
  match orders.lookup symbol with
  | some record =>
      decide (timedeltaDays (now - normalizeTimestamp record.timestamp) ≤ 1)
  | none => false

/-- One symbol's entry of the ticker snapshot returned by `fetch_tickers`:
the `last` price and the exchange-reported 24h `percentage` change. -/
structure Ticker where
  last : ℚ
  percentage : ℚ
deriving DecidableEq

/-- Outcome of the per-symbol decision code at lines 133-140 of `buydips.py`:
the two trigger flags and, when it was computed, the discount relative to the
previous buy price. -/
structure DipDecision where
  buy_first_time : Bool
  buy_again : Bool
  discount_pct : Option ℚ
deriving DecidableEq

/-- The dip-detector decision (lines 133-140 of `buydips.py`): if the symbol
is in `orders` and was bought less than 24h ago, compute
`discount_pct = (last / price - 1) * 100` and set
`buy_again := discount_pct < -min_additional_drop`; otherwise set
`buy_first_time := percentage < -min_drop`. -/
def dipDecision (now : ℚ) (orders : Orders) (symbol : String) (ticker : Ticker)
    (min_drop min_additional_drop : ℚ) : DipDecision :=
  match orders.lookup symbol with
  | some record =>
      if bought_less_than_24h_ago now symbol orders then
        let discount_pct := (ticker.last / record.price - 1) * 100
        { buy_first_time := false
          buy_again := decide (discount_pct < -min_additional_drop)
          discount_pct := some discount_pct }
      else
        { buy_first_time := decide (ticker.percentage < -min_drop)
          buy_again := false
          discount_pct := none }
  | none =>
      { buy_first_time := decide (ticker.percentage < -min_drop)
        buy_again := false
        discount_pct := none }

/-- The configuration values the loop body reads: the two drop thresholds
(CLI options) and `config['General']['retry_after']` in minutes. -/
structure Config where
  min_drop : ℚ
  min_additional_drop : ℚ
  retry_after : ℚ
deriving DecidableEq

/-- Result of `crypto.place_order`: the purchase record of a filled order, or
the `InsufficientFunds` exception. -/
inductive OrderResult where
  | ok (record : PurchaseRecord)
  | insufficientFunds
deriving DecidableEq

/-- Observable side effects of the loop body, in program order.  Log and
notification text abstracts Python's number formatting to `toString`. -/
inductive Event where
  | warnLog (msg : String)
  | infoLog (msg : String)
  | debugLog (msg : String)
  | notified (msg : String)
  | sleptSeconds (secs : ℚ)
  | placedOrder (symbol : String)
  | savedOrders (orders : Orders)
deriving DecidableEq

/-- The warning/notification text of the `InsufficientFunds` handler
(line 151 of `buydips.py`). -/
def insufficientFundsMsg (retry_after : ℚ) : String :=
  "Insufficient funds. Trying again in " ++ toString retry_after ++ " minutes..."

/-- The buy message when `buy_again` fired (line 160 of `buydips.py`). -/
def buyAgainMsg (symbol : String) (last discount_pct : ℚ) : String :=
  "Buying " ++ symbol ++ " @ " ++ toString last ++ ", " ++ toString discount_pct
    ++ "% lower than previous buy"

/-- The buy message when `buy_first_time` fired (line 162 of `buydips.py`). -/
def buyFirstMsg (symbol : String) (last percentage : ℚ) : String :=
  "Buying " ++ symbol ++ " @ " ++ toString last ++ ", " ++ toString percentage
    ++ "% lower than 24h ago"

/-- The debug message of the no-trigger branch (line 166 of `buydips.py`). -/
def notEnoughDiscountMsg (symbol : String) (last percentage : ℚ) : String :=
  symbol ++ " currently selling at " ++ toString last ++ " (" ++ toString percentage
    ++ "%) - Not enough discount"

/-- `orders[symbol] = record`: Python dict assignment on the association
list — replace the existing entry for the key, else append at the end. -/
def insertOrder (symbol : String) (record : PurchaseRecord) : Orders → Orders
  | [] => [(symbol, record)]
  | (s, r) :: rest =>
      if s == symbol then (s, record) :: rest
      else (s, r) :: insertOrder symbol record rest

/-- Result of processing one symbol (or one whole snapshot): the resulting
`orders` dict and the emitted effects. -/
structure StepResult where
  orders : Orders
  events : List Event
deriving DecidableEq

/-- The per-symbol body of the trading loop (lines 132-166 of `buydips.py`):
decide; if a trigger fired, attempt the order — on `InsufficientFunds` warn,
notify, sleep `retry_after * 60` seconds and continue; on success store the
record, persist the whole dict, log and notify; otherwise emit the
not-enough-discount debug line.  `po` is the outcome `crypto.place_order`
would produce for this attempt. -/
def processSymbol (cfg : Config) (now : ℚ) (orders : Orders) (symbol : String)
    (ticker : Ticker) (po : OrderResult) : StepResult :=
  let d := dipDecision now orders symbol ticker cfg.min_drop cfg.min_additional_drop
  if d.buy_first_time || d.buy_again then
    match po with
    | .insufficientFunds =>
        let msg := insufficientFundsMsg cfg.retry_after
        { orders := orders
          events := [.warnLog msg, .notified msg, .sleptSeconds (cfg.retry_after * 60)] }
    | .ok record =>
        let orders2 := insertOrder symbol record orders
        let msg :=
          if d.buy_again then buyAgainMsg symbol ticker.last (d.discount_pct.getD 0)
          else buyFirstMsg symbol ticker.last ticker.percentage
        { orders := orders2
          events := [.placedOrder symbol, .savedOrders orders2, .infoLog msg, .notified msg] }
  else
    { orders := orders
      events := [.debugLog (notEnoughDiscountMsg symbol ticker.last ticker.percentage)] }

/-- The `for symbol, ticker in tickers.items()` loop over one snapshot:
process each symbol in order, threading the `orders` dict through. -/
def processCycle (cfg : Config) (now : ℚ) (orders : Orders)
    (tickers : List (String × Ticker)) (po : String → OrderResult) : StepResult :=
  match tickers with
  | [] => { orders := orders, events := [] }
  | (symbol, ticker) :: rest =>
      let step := processSymbol cfg now orders symbol ticker (po symbol)
      let restRes := processCycle cfg now step.orders rest po
      { orders := restRes.orders, events := step.events ++ restRes.events }

/-- The exceptions relevant to the `@retry` decorator on `main`:
`ccxt`'s `NetworkError` and `RequestTimeout` are listed in the decorator;
anything else is uncaught. -/
inductive PyExc where
  | networkError
  | requestTimeout
  | otherExc
deriving DecidableEq

/-- Which exceptions the decorator
`@retry((RequestTimeout, NetworkError), tries=8, delay=15, backoff=2)`
catches. -/
def caughtByRetry : PyExc → Bool
  | .networkError => true
  | .requestTimeout => true
  | .otherExc => false

/-- Coarse observable events of one invocation of `main`'s body, for the
retry-scope analysis: the startup load of the order store
(`db.get_orders()`, line 115) and each `binance.fetch_tickers` call
(line 130).  Per-symbol processing is elided here — it is modelled by
`processCycle`. -/
inductive MainEvent where
  | loadedOrders
  | fetchAttempt
deriving DecidableEq

/-- The `while True` fetch loop of `main`, scripted: each list element is the
outcome of one `fetch_tickers` call; the loop raises the first error outcome
and otherwise keeps fetching until the script is exhausted (modelling an
externally interrupted run). -/
def mainFetchLoop : List (Except PyExc Unit) → List MainEvent × Except PyExc Unit
  | [] => ([], Except.ok ())
  | Except.ok () :: rest =>
      let r := mainFetchLoop rest
      (MainEvent.fetchAttempt :: r.1, r.2)
  | Except.error e :: _ => ([MainEvent.fetchAttempt], Except.error e)

/-- One invocation of the undecorated `main` body: startup (loading the order
store) happens first, then the fetch loop runs. -/
def mainBody (script : List (Except PyExc Unit)) : List MainEvent × Except PyExc Unit :=
  let r := mainFetchLoop script
  (MainEvent.loadedOrders :: r.1, r.2)

/-- The `retry.api.retry` decorator: call `f` (here indexed by the attempt
number); on a caught exception, sleep `delay`, multiply the delay by
`backoff`, and try again, for `tries` total attempts; the last failure, and
any uncaught exception, is re-raised.  Returns the concatenated event traces
of all attempts, the list of sleeps, and the final outcome.  The decorator on
`main` uses `tries = 8 ≥ 1`; `tries = 0` is treated as a single attempt to
keep the function total. -/
def retryTr (f : Nat → List MainEvent × Except PyExc Unit) :
    Nat → ℚ → ℚ → Nat → List MainEvent × List ℚ × Except PyExc Unit
  | 0, _, _, attempt => ((f attempt).1, [], (f attempt).2)
  | 1, _, _, attempt => ((f attempt).1, [], (f attempt).2)
  | Nat.succ (Nat.succ n), delay, backoff, attempt =>
      match f attempt with
      | (tr, Except.ok a) => (tr, [], Except.ok a)
      | (tr, Except.error e) =>
          if caughtByRetry e then
            let rest := retryTr f (Nat.succ n) (delay * backoff) backoff (attempt + 1)
            (tr ++ rest.1, delay :: rest.2.1, rest.2.2)
          else (tr, [], Except.error e)

/-- `main` as deployed: the whole body (startup included) wrapped in
`@retry(..., tries=8, delay=15, backoff=2)`.  `scripts a` is the fetch-outcome
script of the `a`-th invocation of the body. -/
def retriedMain (scripts : Nat → List (Except PyExc Unit)) :
    List MainEvent × List ℚ × Except PyExc Unit :=
  retryTr (fun a => mainBody (scripts a)) 8 15 2 0

/-- Outcome of the `requests.get` call inside `send_msg`: a response with
some HTTP status (`requests` does not raise on error statuses), or a raised
transport exception (connection failure, timeout, ...). -/
inductive RequestsOutcome where
  | response (status : Nat)
  | raisesExc
deriving DecidableEq

/-- `send_msg` from `components/common/NotificationsHelper.py` (lines 19-21):
build the Telegram URL and perform `requests.get(url)`.  The response is
discarded; there is no `try`/`except`, so an exception raised by the GET
propagates to the caller (`Except.error ()`). -/
def send_msg (telegram_bot_token telegram_chat_id msg : String)
    (get : String → RequestsOutcome) : Except Unit Unit :=
  let url := "https://api.telegram.org/bot" ++ telegram_bot_token
    ++ "/sendMessage?chat_id=" ++ telegram_chat_id ++ "&text=" ++ msg
  match get url with
  | .response _ => Except.ok ()
  | .raisesExc => Except.error ()

/-- The `savedOrders` payloads among a list of events: every state the order
store was persisted with (`db.save`, line 158). -/
def savedOrdersOf (events : List Event) : List Orders :=
  events.filterMap fun e =>
    match e with
    | .savedOrders o => some o
    | _ => none

/-! ### Helper lemmas -/

/-- When the symbol has a record and the day-window test passes, the decision
is the `buy_again` branch, whose fields depend only on `ticker.last`, the
recorded price and `min_additional_drop`. -/
theorem dipDecision_of_window_true (now : ℚ) (orders : Orders) (symbol : String)
    (ticker : Ticker) (md mad : ℚ) (record : PurchaseRecord)
    (hrec : orders.lookup symbol = some record)
    (hwin : bought_less_than_24h_ago now symbol orders = true) :
    dipDecision now orders symbol ticker md mad
      = { buy_first_time := false
          buy_again := decide ((ticker.last / record.price - 1) * 100 < -mad)
          discount_pct := some ((ticker.last / record.price - 1) * 100) } := by
  simp [dipDecision, hrec, hwin]

/-- When the symbol has no record, the decision is the first-time branch. -/
theorem dipDecision_of_no_record (now : ℚ) (orders : Orders) (symbol : String)
    (ticker : Ticker) (md mad : ℚ) (hrec : orders.lookup symbol = none) :
    dipDecision now orders symbol ticker md mad
      = { buy_first_time := decide (ticker.percentage < -md)
          buy_again := false
          discount_pct := none } := by
  simp [dipDecision, hrec]

/-- Keys of `insertOrder`: unchanged when the symbol is already present,
otherwise the symbol is appended. -/
theorem insertOrder_keys (symbol : String) (record : PurchaseRecord)
    (orders : Orders) :
    (insertOrder symbol record orders).map Prod.fst
      = if symbol ∈ orders.map Prod.fst then orders.map Prod.fst
        else orders.map Prod.fst ++ [symbol] := by
  induction orders with
  | nil => simp [insertOrder]
  | cons head rest ih =>
    obtain ⟨s, r⟩ := head
    by_cases hs : s = symbol
    · subst hs
      simp [insertOrder]
    · have hbeq : (s == symbol) = false := by simp [hs]
      by_cases hm : symbol ∈ rest.map Prod.fst <;>
        simp [insertOrder, hbeq, ih, hm, Ne.symm hs]

/-- `insertOrder` preserves key-uniqueness of the orders dict. -/
theorem insertOrder_keys_nodup (symbol : String) (record : PurchaseRecord)
    (orders : Orders) (h : (orders.map Prod.fst).Nodup) :
    ((insertOrder symbol record orders).map Prod.fst).Nodup := by
  rw [insertOrder_keys]
  split
  · exact h
  · next hmem => simp [List.nodup_append, h, hmem]

/-! ### Claim theorems -/

/-- Claim C1: for every symbol with a purchase record whose buy falls within
the day window (`bought_less_than_24h_ago` true), `buy_again` triggers iff
`(current_price / last_buy_price - 1) * 100 < -min_additional_drop`,
`buy_first_time` never fires, and the exchange-reported 24h percentage plays
no role in the decision. -/
theorem C1_buy_again_rule (now : ℚ) (orders : Orders) (symbol : String)
    (ticker : Ticker) (min_drop min_additional_drop : ℚ) (record : PurchaseRecord)
    (hrec : orders.lookup symbol = some record)
    (hwin : bought_less_than_24h_ago now symbol orders = true) :
    ((dipDecision now orders symbol ticker min_drop min_additional_drop).buy_again = true
      ↔ (ticker.last / record.price - 1) * 100 < -min_additional_drop)
    ∧ (dipDecision now orders symbol ticker min_drop min_additional_drop).buy_first_time
        = false
    ∧ ∀ p : ℚ,
        dipDecision now orders symbol { last := ticker.last, percentage := p }
            min_drop min_additional_drop
          = dipDecision now orders symbol ticker min_drop min_additional_drop := by
  refine ⟨?_, ?_, ?_⟩
  · rw [dipDecision_of_window_true now orders symbol ticker min_drop
      min_additional_drop record hrec hwin]
    simp
  · rw [dipDecision_of_window_true now orders symbol ticker min_drop
      min_additional_drop record hrec hwin]
  · intro p
    rw [dipDecision_of_window_true now orders symbol ticker min_drop
      min_additional_drop record hrec hwin,
      dipDecision_of_window_true now orders symbol
        { last := ticker.last, percentage := p } min_drop
        min_additional_drop record hrec hwin]

/-- Witness for C1 at the spec's scenario: bought at 30000 one hour ago,
now selling at 29000 (≈ -3.33%), `min_additional_drop = 2` triggers a
buy-again. -/
theorem C1_buy_again_rule_witness :
    (dipDecision 4600 [("BTC/USDT", ⟨30000, 1, PyNum.float 1000⟩)] "BTC/USDT"
      ⟨29000, 5⟩ 7 2).buy_again = true := by
  refine ((C1_buy_again_rule 4600 [("BTC/USDT", ⟨30000, 1, PyNum.float 1000⟩)]
    "BTC/USDT" ⟨29000, 5⟩ 7 2 ⟨30000, 1, PyNum.float 1000⟩ (by simp [List.lookup])
    (by norm_num [bought_less_than_24h_ago, timedeltaDays, normalizeTimestamp,
      PyNum.toRat, PyNum.strContainsDot, List.lookup])).1).mpr (by norm_num)

/-- Claim C2: for every symbol with no purchase record, `buy_first_time`
triggers iff the exchange-reported 24h percentage change is strictly below
`-min_drop`, and `buy_again` never fires. -/
theorem C2_first_time_rule (now : ℚ) (orders : Orders) (symbol : String)
    (ticker : Ticker) (min_drop min_additional_drop : ℚ)
    (hnone : orders.lookup symbol = none) :
    ((dipDecision now orders symbol ticker min_drop min_additional_drop).buy_first_time
        = true
      ↔ ticker.percentage < -min_drop)
    ∧ (dipDecision now orders symbol ticker min_drop min_additional_drop).buy_again
        = false := by
  rw [dipDecision_of_no_record now orders symbol ticker min_drop
    min_additional_drop hnone]
  simp

/-- Witness for C2 at the spec's scenario: never bought, 24h percentage -8,
`min_drop = 7` triggers a first-time buy. -/
theorem C2_first_time_rule_witness :
    (dipDecision 0 [] "BTC/USDT" ⟨100, -8⟩ 7 2).buy_first_time = true :=
  ((C2_first_time_rule 0 [] "BTC/USDT" ⟨100, -8⟩ 7 2 rfl).1).mpr (by norm_num)

/-- Claim C3: a symbol whose record is older than the day window
(`bought_less_than_24h_ago` false) is decided exactly like a symbol that was
never bought: the decision equals the decision over an empty order store, so
the first-time 24h-percentage rule applies and the additional-drop rule is
ignored. -/
theorem C3_stale_record_falls_back (now : ℚ) (orders : Orders) (symbol : String)
    (ticker : Ticker) (min_drop min_additional_drop : ℚ) (record : PurchaseRecord)
    (hrec : orders.lookup symbol = some record)
    (hwin : bought_less_than_24h_ago now symbol orders = false) :
    dipDecision now orders symbol ticker min_drop min_additional_drop
      = dipDecision now [] symbol ticker min_drop min_additional_drop := by
  rw [dipDecision_of_no_record now [] symbol ticker min_drop
    min_additional_drop rfl]
  simp [dipDecision, hrec, hwin]

/-- Witness for C3: a record bought at epoch 0, evaluated 200000 seconds
(more than 2 days) later, decides like an empty store. -/
theorem C3_stale_record_falls_back_witness :
    dipDecision 200000 [("BTC/USDT", ⟨30000, 1, PyNum.float 0⟩)] "BTC/USDT"
        ⟨29000, 5⟩ 7 2
      = dipDecision 200000 [] "BTC/USDT" ⟨29000, 5⟩ 7 2 :=
  C3_stale_record_falls_back 200000 [("BTC/USDT", ⟨30000, 1, PyNum.float 0⟩)]
    "BTC/USDT" ⟨29000, 5⟩ 7 2 ⟨30000, 1, PyNum.float 0⟩ (by simp [List.lookup])
    (by norm_num [bought_less_than_24h_ago, timedeltaDays, normalizeTimestamp,
      PyNum.toRat, PyNum.strContainsDot, List.lookup])

/-- Claim C4: timestamp normalization in the day-window check — a stored
timestamp whose textual form contains no decimal point (a Python int) is
treated as milliseconds and divided by 1000; a timestamp with a fractional
part (a Python float, whose textual form contains a decimal point) is used
unchanged as seconds.  Stated both on `normalizeTimestamp` and on its use
inside `bought_less_than_24h_ago`. -/
theorem C4_timestamp_normalization (now : ℚ) (symbol : String)
    (price amount : ℚ) (n : Int) (q : ℚ) :
    normalizeTimestamp (PyNum.int n) = (n : ℚ) / 1000
    ∧ normalizeTimestamp (PyNum.float q) = q
    ∧ bought_less_than_24h_ago now symbol [(symbol, ⟨price, amount, PyNum.int n⟩)]
        = decide (timedeltaDays (now - (n : ℚ) / 1000) ≤ 1)
    ∧ bought_less_than_24h_ago now symbol [(symbol, ⟨price, amount, PyNum.float q⟩)]
        = decide (timedeltaDays (now - q) ≤ 1) := by
  refine ⟨rfl, rfl, ?_, ?_⟩ <;>
    simp [bought_less_than_24h_ago, normalizeTimestamp, PyNum.strContainsDot,
      PyNum.toRat, List.lookup]

/-- Claim C10: the day window is two calendar days wide — whenever the whole
number of elapsed days is at most 1, `bought_less_than_24h_ago` is true, so
in particular every purchase made less than 48 hours ago (for example
47 hours ago, as the witness shows) is routed to the buy-again rule, not the
first-time rule. -/
theorem C10_window_is_48h_wide (now : ℚ) (orders : Orders) (symbol : String)
    (ticker : Ticker) (min_drop min_additional_drop : ℚ) (record : PurchaseRecord)
    (hrec : orders.lookup symbol = some record) :
    (timedeltaDays (now - normalizeTimestamp record.timestamp) ≤ 1 →
      bought_less_than_24h_ago now symbol orders = true)
    ∧ (0 ≤ now - normalizeTimestamp record.timestamp →
        now - normalizeTimestamp record.timestamp < 48 * 3600 →
          bought_less_than_24h_ago now symbol orders = true
          ∧ (dipDecision now orders symbol ticker min_drop
              min_additional_drop).buy_first_time = false
          ∧ ((dipDecision now orders symbol ticker min_drop
                min_additional_drop).buy_again = true
              ↔ (ticker.last / record.price - 1) * 100 < -min_additional_drop)) := by
  have hdays : ∀ _ : 0 ≤ now - normalizeTimestamp record.timestamp,
      now - normalizeTimestamp record.timestamp < 48 * 3600 →
        timedeltaDays (now - normalizeTimestamp record.timestamp) ≤ 1 := by
    intro _ hlt
    have h2 : (now - normalizeTimestamp record.timestamp) / 86400 < 2 := by
      rw [div_lt_iff₀ (by norm_num : (0:ℚ) < 86400)]
      linarith
    have hfl : ⌊(now - normalizeTimestamp record.timestamp) / 86400⌋ < (2:ℤ) :=
      Int.floor_lt.mpr (by exact_mod_cast h2)
    unfold timedeltaDays
    linarith
  have hwin : ∀ _ : timedeltaDays (now - normalizeTimestamp record.timestamp) ≤ 1,
      bought_less_than_24h_ago now symbol orders = true := by
    intro h
    simp [bought_less_than_24h_ago, hrec, h]
  refine ⟨hwin, fun h0 hlt => ?_⟩
  have hw := hwin (hdays h0 hlt)
  refine ⟨hw, ?_, ?_⟩
  · rw [dipDecision_of_window_true now orders symbol ticker min_drop
      min_additional_drop record hrec hw]
  · rw [dipDecision_of_window_true now orders symbol ticker min_drop
      min_additional_drop record hrec hw]
    simp

/-- Witness for C10: a purchase made exactly 47 hours (169200 seconds) ago
still counts as bought within the last 24 hours. -/
theorem C10_window_is_48h_wide_witness :
    bought_less_than_24h_ago 169200 "BTC/USDT"
      [("BTC/USDT", ⟨30000, 1, PyNum.float 0⟩)] = true :=
  ((C10_window_is_48h_wide 169200 [("BTC/USDT", ⟨30000, 1, PyNum.float 0⟩)]
      "BTC/USDT" ⟨29000, 5⟩ 7 2 ⟨30000, 1, PyNum.float 0⟩
      (by simp [List.lookup])).2
    (by norm_num [normalizeTimestamp, PyNum.strContainsDot, PyNum.toRat])
    (by norm_num [normalizeTimestamp, PyNum.strContainsDot, PyNum.toRat])).1

/-- Claim C5: at most one trigger path applies per symbol per cycle —
`buy_first_time` and `buy_again` are never simultaneously true — and when
neither condition holds the loop body places no order, leaves the orders
dict unchanged, persists nothing, and emits only the not-enough-discount
debug log. -/
theorem C5_one_trigger_path (cfg : Config) (now : ℚ) (orders : Orders)
    (symbol : String) (ticker : Ticker) (po : OrderResult) :
    (¬ ((dipDecision now orders symbol ticker cfg.min_drop
            cfg.min_additional_drop).buy_first_time = true
        ∧ (dipDecision now orders symbol ticker cfg.min_drop
            cfg.min_additional_drop).buy_again = true))
    ∧ ((dipDecision now orders symbol ticker cfg.min_drop
          cfg.min_additional_drop).buy_first_time = false →
       (dipDecision now orders symbol ticker cfg.min_drop
          cfg.min_additional_drop).buy_again = false →
        processSymbol cfg now orders symbol ticker po
          = { orders := orders
              events := [Event.debugLog
                (notEnoughDiscountMsg symbol ticker.last ticker.percentage)] }) := by
  constructor
  · have hx : (dipDecision now orders symbol ticker cfg.min_drop
          cfg.min_additional_drop).buy_first_time = false
        ∨ (dipDecision now orders symbol ticker cfg.min_drop
            cfg.min_additional_drop).buy_again = false := by
      unfold dipDecision
      cases orders.lookup symbol with
      | none => exact Or.inr rfl
      | some record =>
        by_cases hw : bought_less_than_24h_ago now symbol orders <;> simp [hw]
    rintro ⟨h1, h2⟩
    rcases hx with hx | hx
    · rw [h1] at hx; exact Bool.true_eq_false.mp hx
    · rw [h2] at hx; exact Bool.true_eq_false.mp hx
  · intro h1 h2
    simp [processSymbol, h1, h2]

/-- Witness for C5: no record, percentage 0 with `min_drop = 7` — neither
trigger fires and the body only emits the debug line. -/
theorem C5_one_trigger_path_witness :
    processSymbol ⟨7, 2, 5⟩ 0 [] "BTC/USDT" ⟨100, 0⟩ OrderResult.insufficientFunds
      = { orders := []
          events := [Event.debugLog (notEnoughDiscountMsg "BTC/USDT" 100 0)] } :=
  (C5_one_trigger_path ⟨7, 2, 5⟩ 0 [] "BTC/USDT" ⟨100, 0⟩
      OrderResult.insufficientFunds).2
    (by norm_num [dipDecision, List.lookup])
    (by norm_num [dipDecision, List.lookup])

/-- Claim C6: when a triggered buy raises `InsufficientFunds`, the operator
is notified, the whole loop sleeps `retry_after * 60` seconds, neither the
in-memory orders dict nor the persisted store is mutated (the step's events
are exactly a warning log, a notification and a sleep — no `savedOrders`),
and the cycle then continues with the remaining symbols of the snapshot from
the unchanged orders dict. -/
theorem C6_insufficient_funds_backoff (cfg : Config) (now : ℚ) (orders : Orders)
    (symbol : String) (ticker : Ticker) (rest : List (String × Ticker))
    (po : String → OrderResult)
    (htrig : ((dipDecision now orders symbol ticker cfg.min_drop
          cfg.min_additional_drop).buy_first_time
        || (dipDecision now orders symbol ticker cfg.min_drop
            cfg.min_additional_drop).buy_again) = true)
    (hpo : po symbol = OrderResult.insufficientFunds) :
    (processSymbol cfg now orders symbol ticker (po symbol)).orders = orders
    ∧ (processSymbol cfg now orders symbol ticker (po symbol)).events
        = [Event.warnLog (insufficientFundsMsg cfg.retry_after),
           Event.notified (insufficientFundsMsg cfg.retry_after),
           Event.sleptSeconds (cfg.retry_after * 60)]
    ∧ processCycle cfg now orders ((symbol, ticker) :: rest) po
        = { orders := (processCycle cfg now orders rest po).orders
            events := (processSymbol cfg now orders symbol ticker (po symbol)).events
              ++ (processCycle cfg now orders rest po).events } := by
  have hstep : processSymbol cfg now orders symbol ticker (po symbol)
      = { orders := orders
          events := [Event.warnLog (insufficientFundsMsg cfg.retry_after),
            Event.notified (insufficientFundsMsg cfg.retry_after),
            Event.sleptSeconds (cfg.retry_after * 60)] } := by
    simp [processSymbol, htrig, hpo]
  refine ⟨by rw [hstep], by rw [hstep], ?_⟩
  simp [processCycle, hstep]

/-- Witness for C6: first-time trigger (percentage -10, `min_drop = 7`) with
the exchange refusing for lack of funds leaves the orders dict empty. -/
theorem C6_insufficient_funds_backoff_witness :
    (processSymbol ⟨7, 2, 5⟩ 0 [] "BTC/USDT" ⟨100, -10⟩
      ((fun _ => OrderResult.insufficientFunds) "BTC/USDT")).orders = [] :=
  (C6_insufficient_funds_backoff ⟨7, 2, 5⟩ 0 [] "BTC/USDT" ⟨100, -10⟩ []
    (fun _ => OrderResult.insufficientFunds)
    (by norm_num [dipDecision, List.lookup]) rfl).1

/-- Claim C7: the order store is written exactly when a triggered buy
succeeds — the returned record replaces any previous record for the symbol,
the whole updated mapping is persisted immediately (exactly one `savedOrders`
effect, carrying the updated mapping), no other path of the loop body writes
the store, and at most one record per symbol ever exists (key-uniqueness is
preserved). -/
theorem C7_store_write_iff_success (cfg : Config) (now : ℚ) (orders : Orders)
    (symbol : String) (ticker : Ticker) (po : OrderResult)
    (hnd : (orders.map Prod.fst).Nodup) :
    (∀ record, po = OrderResult.ok record →
      ((dipDecision now orders symbol ticker cfg.min_drop
            cfg.min_additional_drop).buy_first_time
          || (dipDecision now orders symbol ticker cfg.min_drop
              cfg.min_additional_drop).buy_again) = true →
        (processSymbol cfg now orders symbol ticker po).orders
            = insertOrder symbol record orders
        ∧ savedOrdersOf (processSymbol cfg now orders symbol ticker po).events
            = [insertOrder symbol record orders])
    ∧ (po = OrderResult.insufficientFunds
        ∨ ((dipDecision now orders symbol ticker cfg.min_drop
              cfg.min_additional_drop).buy_first_time
            || (dipDecision now orders symbol ticker cfg.min_drop
                cfg.min_additional_drop).buy_again) = false →
        (processSymbol cfg now orders symbol ticker po).orders = orders
        ∧ savedOrdersOf (processSymbol cfg now orders symbol ticker po).events = [])
    ∧ ((processSymbol cfg now orders symbol ticker po).orders.map Prod.fst).Nodup := by
  refine ⟨?_, ?_, ?_⟩
  · rintro record rfl htrig
    constructor <;> simp [processSymbol, htrig, savedOrdersOf]
  · rintro (rfl | htrig)
    · by_cases htrig : ((dipDecision now orders symbol ticker cfg.min_drop
            cfg.min_additional_drop).buy_first_time
          || (dipDecision now orders symbol ticker cfg.min_drop
              cfg.min_additional_drop).buy_again) = true
      · constructor <;> simp [processSymbol, htrig, savedOrdersOf]
      · rw [Bool.not_eq_true] at htrig
        constructor <;> simp [processSymbol, htrig, savedOrdersOf]
    · constructor <;> simp [processSymbol, htrig, savedOrdersOf]
  · cases po with
    | insufficientFunds =>
      by_cases htrig : ((dipDecision now orders symbol ticker cfg.min_drop
            cfg.min_additional_drop).buy_first_time
          || (dipDecision now orders symbol ticker cfg.min_drop
              cfg.min_additional_drop).buy_again) = true
      · simpa [processSymbol, htrig] using hnd
      · rw [Bool.not_eq_true] at htrig
        simpa [processSymbol, htrig] using hnd
    | ok record =>
      by_cases htrig : ((dipDecision now orders symbol ticker cfg.min_drop
            cfg.min_additional_drop).buy_first_time
          || (dipDecision now orders symbol ticker cfg.min_drop
              cfg.min_additional_drop).buy_again) = true
      · simp only [processSymbol, htrig]
        simpa using insertOrder_keys_nodup symbol record orders hnd
      · rw [Bool.not_eq_true] at htrig
        simpa [processSymbol, htrig] using hnd

/-- Witness for C7: a successful first-time buy of a fresh symbol stores
exactly that record. -/
theorem C7_store_write_iff_success_witness :
    (processSymbol ⟨7, 2, 5⟩ 0 [] "BTC/USDT" ⟨100, -10⟩
        (OrderResult.ok ⟨100, 1, PyNum.int 0⟩)).orders
      = insertOrder "BTC/USDT" ⟨100, 1, PyNum.int 0⟩ [] :=
  ((C7_store_write_iff_success ⟨7, 2, 5⟩ 0 [] "BTC/USDT" ⟨100, -10⟩
      (OrderResult.ok ⟨100, 1, PyNum.int 0⟩) (by simp)).1
    ⟨100, 1, PyNum.int 0⟩ rfl (by norm_num [dipDecision, List.lookup])).1

/-- Computation of an 8-attempt retry in which every attempt fails with an
exception the decorator catches (`NetworkError` or `RequestTimeout`, in any
mixture): all 8 traces are produced, the sleeps follow the geometric schedule
15, 30, ..., 960, and the last attempt's exception is re-raised. -/
theorem retryTr_eight_failures (g : Nat → List MainEvent) (e : Nat → PyExc)
    (hc : ∀ n, caughtByRetry (e n) = true) :
    retryTr (fun n => (g n, Except.error (e n))) 8 15 2 0
      = (g 0 ++ (g 1 ++ (g 2 ++ (g 3 ++ (g 4 ++ (g 5 ++ (g 6 ++ g 7)))))),
         [15, 30, 60, 120, 240, 480, 960],
         Except.error (e 7)) := by
  norm_num [retryTr, hc]

/-- Counterexample to claim C8 as stated: with the first body invocation's
only fetch failing with `NetworkError` and the second invocation succeeding,
the retried `main` re-executes startup — the order store is loaded twice —
so the retried unit is not only the cycle fetch. -/
theorem C8_retry_scope_counterexample :
    ¬ ((retriedMain fun a =>
          if a = 0 then [Except.error PyExc.networkError] else []).1.count
        MainEvent.loadedOrders = 1) := by decide

/-- Claim C8 (amended): every exception the decorator catches — both
`NetworkError` and `RequestTimeout`, in any mixture across attempts — is
retried with exponential backoff, 8 attempts with sleeps of 15, 30, 60, 120,
240, 480 and 960 seconds, and after the last failing attempt that attempt's
error propagates as fatal; but each retry re-invokes the whole `main` body
(startup included), not just the ticker fetch. -/
theorem C8_bounded_backoff_retry (f : Nat → List MainEvent × Except PyExc Unit)
    (e : Nat → PyExc) (h : ∀ n, (f n).2 = Except.error (e n))
    (hc : ∀ n, caughtByRetry (e n) = true) :
    retryTr f 8 15 2 0
      = ((f 0).1 ++ ((f 1).1 ++ ((f 2).1 ++ ((f 3).1 ++ ((f 4).1 ++ ((f 5).1
            ++ ((f 6).1 ++ (f 7).1)))))),
         [15, 30, 60, 120, 240, 480, 960],
         Except.error (e 7)) := by
  have hfun : f = fun n => ((f n).1, Except.error (e n)) := by
    funext n; rw [← h n]
  rw [hfun]
  exact retryTr_eight_failures (fun n => (f n).1) e hc

/-- Witness for C8 (amended), exercising the `RequestTimeout` case: a body
that loads the order store and then times out on its fetch on every
invocation is attempted 8 times with the geometric sleep sequence before the
timeout propagates. -/
theorem C8_bounded_backoff_retry_witness :
    retryTr (fun _ => ([MainEvent.loadedOrders], Except.error PyExc.requestTimeout))
        8 15 2 0
      = ([MainEvent.loadedOrders, MainEvent.loadedOrders, MainEvent.loadedOrders,
          MainEvent.loadedOrders, MainEvent.loadedOrders, MainEvent.loadedOrders,
          MainEvent.loadedOrders, MainEvent.loadedOrders],
         [15, 30, 60, 120, 240, 480, 960],
         Except.error PyExc.requestTimeout) := by
  have := C8_bounded_backoff_retry
    (fun _ => ([MainEvent.loadedOrders], Except.error PyExc.requestTimeout))
    (fun _ => PyExc.requestTimeout) (fun _ => rfl) (fun _ => rfl)
  simpa using this

/-- Counterexample to claim C9 as stated: when the HTTP GET inside
`send_msg` raises a transport exception, the failure is surfaced to the
caller (there is no handler), not swallowed. -/
theorem C9_notify_counterexample :
    ¬ (send_msg "token" "chat" "hello" (fun _ => RequestsOutcome.raisesExc)
        = Except.ok ()) := by
  simp [send_msg]

/-- Claim C9 (amended): `send_msg` discards the HTTP response, so a delivery
failure reported in the response (any status code, e.g. a Telegram API
error) is invisible to the caller; but an exception raised by the HTTP GET
itself propagates to the caller. -/
theorem C9_notify_best_effort (telegram_bot_token telegram_chat_id msg : String)
    (status : Nat) :
    send_msg telegram_bot_token telegram_chat_id msg
        (fun _ => RequestsOutcome.response status) = Except.ok ()
    ∧ send_msg telegram_bot_token telegram_chat_id msg
        (fun _ => RequestsOutcome.raisesExc) = Except.error () :=
  ⟨rfl, rfl⟩

end BTCLab
